import Mathlib

/-
Verification development for the drag-to-reorder engine of
react-headless-accessible-hooks.

The definitions below are a shallow embedding of `src/lib/DragService.ts`
and of the pieces of the `useOrderableList` hook that feed it.  Pointer
coordinates and rectangle edges are modelled as rationals (the source uses
JS numbers as exact values; no float-specific behavior is exercised by the
engine).  The mutable `DragService` class becomes a state record; methods
become functions from state to state.  A method that can throw returns the
state as of the throw together with an optional error, mirroring the fact
that a JS exception leaves the mutated object behind.  Externally visible
side effects of the release handler (listener removal, style clearing, the
completion callback) are recorded as an explicit effect trace.
-/

namespace OrderableList

/-- A 2D viewport coordinate, from the `Point` type in DragService.ts. -/
structure Point where
  x : ℚ
  y : ℚ
deriving DecidableEq, Repr

/-- An axis-aligned bounding rectangle (DOMRect edges). -/
structure Rect where
  top : ℚ
  bottom : ℚ
  left : ℚ
  right : ℚ
deriving DecidableEq, Repr

/-- DOMRect height: for a client bounding rect this equals bottom - top. -/
def Rect.height (r : Rect) : ℚ := r.bottom - r.top

/-- A registered DOM element handle: its `data-rhah-orderable-list-id`
dataset attribute (which is `undefined` when absent, hence `Option`) and
its current bounding client rect. -/
structure Elem where
  id : Option String
  rect : Rect
deriving DecidableEq, Repr

/-- Vertical travel direction, the "up" / "down" strings of the source. -/
inductive Dir where
  | up
  | down
deriving DecidableEq, Repr

/-- Externally visible side effects of the pointer-release handler, in the
order the source performs them. -/
inductive Effect where
  | removeMouseMoveListener
  | removeMouseUpListener
  | clearElementPosition
  | dragEnd (newOrderedIds : List String)
deriving DecidableEq, Repr

/-- The errors thrown by DragService methods. -/
inductive DragErr where
  | elementBeyondMax (index : ℕ) (maxElementIndex : ℤ)
  | handlersAlreadyExist
  | notDraggingState (functionName : String)
  | missingElement (index : ℕ)
  | upHandleMoveMissing
  | upHandleUpMissing
  | upDownElementMissing
  | upDraggingIdMissing
  | upPlaceholderMissing
deriving DecidableEq, Repr

/-- The mutable state of the `DragService` class.  The two handler fields
hold closures in the source; here a boolean records whether each is
installed.  `stylePosition` models the visual position override written to
`downElement.style` (cleared = `none`).  `dragOutIsAllowed` is the option
the `useOrderableList` hook passes into the constructor. -/
structure DragService where
  downId : Option String := none
  downAt : Option Point := none
  lastPoint : Option Point := none
  lastDirection : Option Dir := none
  isDragging : Bool := false
  draggingId : Option String := none
  downElement : Option Elem := none
  downRect : Option Rect := none
  elements : ℕ → Option Elem := fun _ => none
  maxElementIndex : ℤ := 0
  handleMove : Bool := false
  handleUp : Bool := false
  orderedElementIds : List String := []
  placeholderItemIndex : Option ℤ := none
  placeholderElementIndex : Option ℤ := none
  stylePosition : Option (ℚ × ℚ) := none
  dragOutIsAllowed : Bool := true

/-- The constructor: `new DragService(ids, { onDragEnd, dragOutIsAllowed })`.
The completion callback is modelled by the `Effect.dragEnd` trace entry.
The `dragOutIsAllowed` option is stored so claims about it can be stated;
note that, exactly as in the source, no method below ever reads it. -/
def DragService.init (ids : List String) (dragOutIsAllowed : Bool) : DragService :=
  { orderedElementIds := ids, dragOutIsAllowed := dragOutIsAllowed }

/-- Method `onMouseDown`: captures down state from the event target. -/
def onMouseDown (s : DragService) (target : Elem) (p : Point) : DragService :=
  { s with downAt := some p
         , lastPoint := some p
         , lastDirection := none
         , downElement := some target
         , downId := target.id
         , downRect := some target.rect }

/-- Method `resetElementList`: replaces the ordered id sequence and
recomputes the max element index (length - 1). -/
def resetElementList (s : DragService) (ids : List String) : DragService :=
  { s with orderedElementIds := ids
         , maxElementIndex := (ids.length : ℤ) - 1 }

/-- Method `pushElement`: throws when the index exceeds `maxElementIndex`,
otherwise stores the element handle at that index. -/
def pushElement (s : DragService) (element : Elem) (index : ℕ) :
    DragService × Option DragErr :=
  if (index : ℤ) > s.maxElementIndex then
    (s, some (DragErr.elementBeyondMax index s.maxElementIndex))
  else
    ({ s with elements := fun i => if i = index then some element else s.elements i }, none)

/-- Method `dragDidStartAt`.  The source guards with `!this.downId ||
!this.downAt`; `downId` is a string, so JS falsiness also rejects the empty
string, while `downAt` is an object and is falsy only when undefined. -/
def dragDidStartAt (s : DragService) (id : String) (x y : ℚ) : Bool :=
  match s.downId, s.downAt with
  | some downId, some downAt =>
    if downId = "" then false
    else if id ≠ downId then false
    else if x = downAt.x ∧ y = downAt.y then false
    else true
  | _, _ => false

/-- The module-level `isPlaceholderId`: tests the reserved id prefix. -/
def isPlaceholderId (id : String) : Bool :=
  String.startsWith id "rhah-placeholder-"

/-- The module-level `withoutPlaceholderIds`: filters placeholder entries. -/
def withoutPlaceholderIds (ids : List String) : List String :=
  ids.filter (fun id => !isPlaceholderId id)

/-- Lodash `without(array, value)`: removes every occurrence of the value. -/
def without (ids : List String) (value : String) : List String :=
  ids.filter (fun id => id != value)

/-- The non-ejected commit computation in the release handler: remove the
dragged id, find the placeholder in the reduced sequence, substitute the
dragged id at that position.  (When no placeholder is present, JS
`findIndex` yields -1 and the write `arr[-1] = v` leaves the array's
elements untouched; `List.set` past the end is likewise the identity, so
the two agree observably.) -/
def commitOrder (orderedElementIds : List String) (droppedId : String) : List String :=
  let orderedItemIds := without orderedElementIds droppedId
  let placeholderItemIndex := orderedItemIds.findIdx (fun id => isPlaceholderId id)
  orderedItemIds.set placeholderItemIndex droppedId

/-- Intrusion predicate for downward travel (`intrudesDown`). -/
def intrudesDown (dy : ℚ) (draggingItemRect targetItemRect : Rect) : Bool :=
  if draggingItemRect.bottom + dy > targetItemRect.top + draggingItemRect.height / 2 then
    true
  else
    false

/-- Intrusion predicate for upward travel (`intrudesUp`). -/
def intrudesUp (dy : ℚ) (draggingItemRect targetItemRect : Rect) : Bool :=
  if draggingItemRect.top + dy < targetItemRect.bottom - draggingItemRect.height / 2 then
    true
  else
    false

/-- `isBelow`: the dragged item has left the list past its bottom end (or
is fully to the left/right of the extreme element). -/
def isBelow (dx dy : ℚ) (draggingItemRect targetItemRect : Rect) : Bool :=
  if draggingItemRect.top + dy > targetItemRect.bottom then true
  else if draggingItemRect.right + dx < targetItemRect.left then true
  else if draggingItemRect.left + dx > targetItemRect.right then true
  else false

/-- `isAbove`: mirror of `isBelow` for the top end of the list. -/
def isAbove (dx dy : ℚ) (draggingItemRect targetItemRect : Rect) : Bool :=
  if draggingItemRect.bottom + dy < targetItemRect.top then true
  else if draggingItemRect.right + dx < targetItemRect.left then true
  else if draggingItemRect.left + dx > targetItemRect.right then true
  else false

/-- The JS idiom `value || fallback` applied to the possibly-undefined
numeric placeholder indexes in `handleMouseMove`: both `undefined` and the
number 0 are falsy, so both select the fallback. -/
def orFalsy (value : Option ℤ) (fallback : ℤ) : ℤ :=
  match value with
  | none => fallback
  | some k => if k = 0 then fallback else k

/-- The local `getItemIndex` closure in the upward walk of
`handleMouseMove`.  Its first guard `!list.placeholderElementIndex` is a
falsiness test, so a placeholder element index of 0 takes the same branch
as an absent one. -/
def getItemIndex (placeholderElementIndex : Option ℤ) (elementIndex : ℤ) : ℤ :=
  match placeholderElementIndex with
  | none => elementIndex
  | some ph =>
    if ph = 0 then elementIndex
    else if ph > elementIndex then elementIndex
    else if ph < 0 then elementIndex
    else elementIndex - 1

/-- One step of the downward `for` loop of `handleMouseMove`, recursing
over the remaining element indexes in ascending order.  Accessing a slot
the registry never filled is the `undefined.getBoundingClientRect()` crash
of the source, reported as `missingElement`.  The loop `break` is modelled
by returning the accumulated `(newItemIndex, newElementIndex)` pair. -/
def walkDownAux (getElem : ℕ → Option Elem) (placeholderElementIndex : Option ℤ)
    (draggingRect : Rect) (dx dy : ℚ) (maxElementIndex : ℤ) :
    List ℕ → ℤ → ℤ × ℤ → Except DragErr (ℤ × ℤ)
  | [], _, acc => Except.ok acc
  | elementIndex :: rest, itemIndex, acc =>
    match getElem elementIndex with
    | none => Except.error (DragErr.missingElement elementIndex)
    | some element =>
      let itemIndex :=
        if placeholderElementIndex = some (elementIndex : ℤ) then itemIndex
        else itemIndex + 1
      let targetRect := element.rect
      let mightSwap := intrudesDown dy draggingRect targetRect
      if (elementIndex : ℤ) = maxElementIndex ∧ isBelow dx dy draggingRect targetRect then
        Except.ok (-2, -2)
      else if mightSwap then
        walkDownAux getElem placeholderElementIndex draggingRect dx dy maxElementIndex
          rest itemIndex (itemIndex, itemIndex)
      else
        Except.ok acc

/-- The downward walk: element indexes 0, 1, ..., maxElementIndex (none
when `maxElementIndex` is negative), with `itemIndex` starting at 0. -/
def walkDown (getElem : ℕ → Option Elem) (placeholderElementIndex : Option ℤ)
    (draggingRect : Rect) (dx dy : ℚ) (maxElementIndex : ℤ) (acc : ℤ × ℤ) :
    Except DragErr (ℤ × ℤ) :=
  walkDownAux getElem placeholderElementIndex draggingRect dx dy maxElementIndex
    (List.range (maxElementIndex + 1).toNat) 0 acc

/-- One step of the upward `for` loop of `handleMouseMove`, recursing over
the remaining element indexes in descending order.  The short-circuiting
`elementIndex === 1 && elements[0].dataset... === draggingId` test only
dereferences slot 0 when `elementIndex` is 1. -/
def walkUpAux (getElem : ℕ → Option Elem) (draggingId : Option String)
    (placeholderElementIndex : Option ℤ) (draggingRect : Rect) (dx dy : ℚ) :
    List ℕ → ℤ × ℤ → Except DragErr (ℤ × ℤ)
  | [], acc => Except.ok acc
  | elementIndex :: rest, acc =>
    match getElem elementIndex with
    | none => Except.error (DragErr.missingElement elementIndex)
    | some element =>
      let targetRect := element.rect
      let mightSwap := intrudesUp dy draggingRect targetRect
      let firstDisjunct : Except DragErr Bool :=
        if elementIndex = 1 then
          match getElem 0 with
          | none => Except.error (DragErr.missingElement 0)
          | some elementZero => Except.ok (elementZero.id = draggingId)
        else Except.ok false
      match firstDisjunct with
      | Except.error err => Except.error err
      | Except.ok atDraggedFirst =>
        let isLastPossibleElement := atDraggedFirst ∨ elementIndex = 0
        if isLastPossibleElement ∧ isAbove dx dy draggingRect targetRect then
          Except.ok (-2, -2)
        else if mightSwap then
          let idx := getItemIndex placeholderElementIndex (elementIndex : ℤ)
          walkUpAux getElem draggingId placeholderElementIndex draggingRect dx dy
            rest (idx, idx)
        else
          Except.ok acc

/-- The upward walk: element indexes maxElementIndex, ..., 1, 0 (none when
`maxElementIndex` is negative). -/
def walkUp (getElem : ℕ → Option Elem) (draggingId : Option String)
    (placeholderElementIndex : Option ℤ) (draggingRect : Rect) (dx dy : ℚ)
    (maxElementIndex : ℤ) (acc : ℤ × ℤ) : Except DragErr (ℤ × ℤ) :=
  walkUpAux getElem draggingId placeholderElementIndex draggingRect dx dy
    (List.range (maxElementIndex + 1).toNat).reverse acc

/-- The move handler produced by `getMouseMoveHandler`.  Returns the state
as of return or throw, the argument of the `onDragTo` callback when it was
invoked, and the thrown error if any.  Note two source quirks kept intact:
`lastPoint` is updated to `{ x: event.clientY, y: event.clientY }`, and the
candidate indexes are seeded through the falsy `|| -2` fallback. -/
def handleMouseMove (s : DragService) (clientX clientY : ℚ) :
    DragService × Option ℤ × Option DragErr :=
  match s.downAt, s.downElement, s.downRect, s.lastPoint, s.isDragging with
  | some downAt, some _, some downRect, some lastPoint, true =>
    let dy := clientY - downAt.y
    let dx := clientX - downAt.x
    let dyFromLastPoint := clientY - lastPoint.y
    let direction : Dir :=
      if dyFromLastPoint > 0 then Dir.down
      else if dyFromLastPoint < 0 then Dir.up
      else s.lastDirection.getD Dir.down
    let s1 := { s with lastDirection := some direction
                     , lastPoint := some { x := clientY, y := clientY } }
    let position : ℚ × ℚ := (downRect.top + clientY - downAt.y, downRect.left + clientX - downAt.x)
    let newElementIndex : ℤ := orFalsy s1.placeholderElementIndex (-2)
    let newItemIndex : ℤ := orFalsy s1.placeholderItemIndex (-2)
    let walkResult : Except DragErr (ℤ × ℤ) :=
      match direction with
      | Dir.down =>
        walkDown s1.elements s1.placeholderElementIndex downRect dx dy
          s1.maxElementIndex (newItemIndex, newElementIndex)
      | Dir.up =>
        walkUp s1.elements s1.draggingId s1.placeholderElementIndex downRect dx dy
          s1.maxElementIndex (newItemIndex, newElementIndex)
    match walkResult with
    | Except.error err => (s1, none, some err)
    | Except.ok (newItemIndex, newElementIndex) =>
      let s2 := { s1 with stylePosition := some position }
      if s2.placeholderItemIndex ≠ some newItemIndex then
        ({ s2 with placeholderItemIndex := some newItemIndex
                 , placeholderElementIndex := some newElementIndex },
         some newItemIndex, none)
      else
        (s2, none, none)
  | _, _, _, _, _ => (s, none, some (DragErr.notDraggingState "getMouseMoveHandler"))

/-- The pointer-release handler installed by `startTracking`.  Returns the
state as of return or throw, the ordered trace of external effects, and
the thrown error if any.  The guard `!this.draggingId` tests a string's
JS falsiness, so it throws both when the dragging id is undefined and when
it is the empty string; the other guards test functions and objects, which
are falsy only when undefined. -/
def handleUp (s : DragService) : DragService × List Effect × Option DragErr :=
  if s.handleMove = false then (s, [], some DragErr.upHandleMoveMissing)
  else if s.handleUp = false then (s, [], some DragErr.upHandleUpMissing)
  else
    match s.downElement with
    | none => (s, [], some DragErr.upDownElementMissing)
    | some _ =>
      match s.draggingId with
      | none => (s, [], some DragErr.upDraggingIdMissing)
      | some droppedId =>
        if droppedId = "" then (s, [], some DragErr.upDraggingIdMissing)
        else if s.placeholderItemIndex = none ∨ s.placeholderElementIndex = none then
          (s, [], some DragErr.upPlaceholderMissing)
        else
          let s' := { s with handleMove := false
                           , handleUp := false
                           , downId := none
                           , downAt := none
                           , lastPoint := none
                           , isDragging := false
                           , draggingId := none
                           , downElement := none
                           , downRect := none
                           , stylePosition := none }
          if s.placeholderItemIndex = some (-2) then
            (s', [Effect.removeMouseMoveListener, Effect.removeMouseUpListener,
                  Effect.clearElementPosition,
                  Effect.dragEnd (withoutPlaceholderIds s.orderedElementIds)], none)
          else
            (s', [Effect.removeMouseMoveListener, Effect.removeMouseUpListener,
                  Effect.clearElementPosition,
                  Effect.dragEnd (commitOrder s.orderedElementIds droppedId)], none)

/-- Method `startTracking`: refuses double-starts before any mutation, then
sets the dragging flag and id, then asserts the dragging sub-state (which
can fail only after those two writes), and finally installs the two global
handlers. -/
def startTracking (s : DragService) (id : String) : DragService × Option DragErr :=
  if s.handleMove = true ∨ s.handleUp = true then
    (s, some DragErr.handlersAlreadyExist)
  else
    let s1 := { s with isDragging := true, draggingId := some id }
    if s1.downAt = none ∨ s1.downElement = none ∨ s1.downRect = none ∨ s1.lastPoint = none then
      (s1, some (DragErr.notDraggingState "startTracking"))
    else
      ({ s1 with handleMove := true, handleUp := true }, none)

/-- Modelled from the hook `useOrderableList` (`insertPlaceholders` memo):
the displayed sequence is the item ids with a placeholder id spliced in at
the placeholder index, except that a negative index or a missing down rect
yields the items unchanged. -/
def insertPlaceholders (items : List String) (placeholderIndex : ℤ)
    (downRect : Option Rect) (placeholderId : String) : List String :=
  if placeholderIndex < 0 ∨ downRect = none then items
  else
    items.take placeholderIndex.toNat ++ [placeholderId] ++ items.drop placeholderIndex.toNat

/-
Concrete drag sessions used by the scenario claims.  Geometry throughout:
three equal-height (height 2) items stacked with zero gap, the list
occupying x in (0, 10): A at (0, 2), B at (2, 4), C at (4, 6).  The pointer
goes down on A at (5, 1).
-/

/-- Element handle for item A at rest. -/
def elemA : Elem := { id := some "A", rect := { top := 0, bottom := 2, left := 0, right := 10 } }

/-- Element handle for item B at rest. -/
def elemB : Elem := { id := some "B", rect := { top := 2, bottom := 4, left := 0, right := 10 } }

/-- Element handle for item C at rest. -/
def elemC : Elem := { id := some "C", rect := { top := 4, bottom := 6, left := 0, right := 10 } }

/-- Shared setup: service constructed over [A, B, C], first render
registered, pointer down on A, tracking started.  Parametrised by the
`dragOutIsAllowed` construction option. -/
def readyToDrag (dragOutIsAllowed : Bool) : DragService :=
  let s0 := DragService.init ["A", "B", "C"] dragOutIsAllowed
  let s1 := resetElementList s0 ["A", "B", "C"]
  let s2 := (pushElement s1 elemA 0).1
  let s3 := (pushElement s2 elemB 1).1
  let s4 := (pushElement s3 elemC 2).1
  let s5 := onMouseDown s4 elemA { x := 5, y := 1 }
  (startTracking s5 "A").1

/-
Claim C2 session: one move event to (5, 3), i.e. two pixels down — past
half of A's height into B, but not into C.
-/

/-- State after the C2 move event. -/
def c2AfterMove : DragService := (handleMouseMove (readyToDrag true) 5 3).1

/-- Displayed id sequence the hook re-renders after the C2 move reported
placeholder index 2. -/
def c2Displayed : List String :=
  insertPlaceholders ["A", "B", "C"] 2 c2AfterMove.downRect "rhah-placeholder-x"

/-- State after the re-render following the C2 move: the element list is
re-registered with A lifted out of the flow (absolute at its dragged
position (2, 4)), B at (0, 2), the placeholder at (2, 4), C at (4, 6). -/
def c2AfterRender : DragService :=
  let s8 := resetElementList c2AfterMove c2Displayed
  let s9 := (pushElement s8 { id := some "A", rect := { top := 2, bottom := 4, left := 0, right := 10 } } 0).1
  let s10 := (pushElement s9 { id := some "B", rect := { top := 0, bottom := 2, left := 0, right := 10 } } 1).1
  let s11 := (pushElement s10 { id := some "rhah-placeholder-x", rect := { top := 2, bottom := 4, left := 0, right := 10 } } 2).1
  (pushElement s11 { id := some "C", rect := { top := 4, bottom := 6, left := 0, right := 10 } } 3).1

/-
Claim C1 session: `dragOutIsAllowed := false`, one move event to (5, 100),
carrying A far below the list, so the move reports the ejected sentinel -2;
the following re-render splices no placeholder (index -2 is negative), and
the pointer is released.
-/

/-- State after the C1 ejecting move event. -/
def c1AfterMove : DragService := (handleMouseMove (readyToDrag false) 5 100).1

/-- Displayed id sequence after the ejecting move: the placeholder index -2
is negative, so no placeholder is spliced in. -/
def c1Displayed : List String :=
  insertPlaceholders ["A", "B", "C"] (-2) c1AfterMove.downRect "rhah-placeholder-x"

/-- State at release time in the C1 session, after the ejected re-render
re-registered A (absolute, far below) and B, C back in the flow. -/
def c1AtRelease : DragService :=
  let s8 := resetElementList c1AfterMove c1Displayed
  let s9 := (pushElement s8 { id := some "A", rect := { top := 99, bottom := 101, left := 0, right := 10 } } 0).1
  let s10 := (pushElement s9 { id := some "B", rect := { top := 0, bottom := 2, left := 0, right := 10 } } 1).1
  (pushElement s10 { id := some "C", rect := { top := 2, bottom := 4, left := 0, right := 10 } } 2).1

/-- Claim C5 state: a minimal dragging state with last point (0, 0),
used to deliver a move event whose clientX and clientY differ. -/
def c5State : DragService :=
  { downId := some "A", downAt := some { x := 0, y := 0 }, lastPoint := some { x := 0, y := 0 }
  , isDragging := true, draggingId := some "A"
  , downElement := some elemA, downRect := some elemA.rect
  , elements := fun i => if i = 0 then some elemA else none
  , maxElementIndex := 0, handleMove := true, handleUp := true
  , orderedElementIds := ["A"] }

/-- Claim C10 state: items [A, B] with the placeholder at item index 0 and
element index 0, A dragged high above the list (registered absolute at
(-5, -3)), the placeholder at (0, 2) and B at (2, 4). -/
def c10State : DragService :=
  { downId := some "A", downAt := some { x := 5, y := 1 }, lastPoint := some { x := 5, y := -4 }
  , lastDirection := some Dir.up, isDragging := true, draggingId := some "A"
  , downElement := some elemA, downRect := some elemA.rect
  , elements := fun i =>
      if i = 0 then some { id := some "rhah-placeholder-x", rect := { top := 0, bottom := 2, left := 0, right := 10 } }
      else if i = 1 then some { id := some "A", rect := { top := -5, bottom := -3, left := 0, right := 10 } }
      else if i = 2 then some { id := some "B", rect := { top := 2, bottom := 4, left := 0, right := 10 } }
      else none
  , maxElementIndex := 2, handleMove := true, handleUp := true
  , orderedElementIds := ["rhah-placeholder-x", "A", "B"]
  , placeholderItemIndex := some 0, placeholderElementIndex := some 0 }

/-- Claim C7 counterexample state: a press captured with the empty string
as the pressed identifier. -/
def c7State : DragService :=
  { downId := some "", downAt := some { x := 0, y := 0 } }

/-- Claim C6 witness state: a complete dragging state over [A, B] with the
placeholder at index 1. -/
def c6State : DragService :=
  { downId := some "A", downAt := some { x := 0, y := 0 }, lastPoint := some { x := 0, y := 0 }
  , isDragging := true, draggingId := some "A"
  , downElement := some elemA, downRect := some elemA.rect
  , maxElementIndex := 1, handleMove := true, handleUp := true
  , orderedElementIds := ["A", "B"]
  , placeholderItemIndex := some 1, placeholderElementIndex := some 1 }

/-- Claim C8 witness state: a registry expecting at most index 1. -/
def c8State : DragService := { maxElementIndex := 1 }

/-- Claim C9 witness states: one with a move handler already installed,
one freshly constructed (no press captured). -/
def c9HandlersState : DragService := { handleMove := true }

/-- Freshly constructed service: no handlers, no press. -/
def c9EmptyState : DragService := {}

/-- Helper for the commit permutation: substituting a value for the first
placeholder of a list holding exactly one placeholder is, up to
permutation, the same as prepending the value to the list with its
placeholders filtered out. -/
theorem set_findIdx_perm (a : String) :
    ∀ l : List String, l.countP isPlaceholderId = 1 →
      (l.set (l.findIdx (fun id => isPlaceholderId id)) a).Perm
        (a :: l.filter (fun id => !isPlaceholderId id)) := by
  intro l
  induction l with
  | nil => intro h; simp at h
  | cons hd tl ih =>
    intro hcount
    rw [List.countP_cons] at hcount
    cases hph : isPlaceholderId hd with
    | true =>
      rw [hph] at hcount
      simp at hcount
      have hfilter : tl.filter (fun id => !isPlaceholderId id) = tl := by
        rw [List.filter_eq_self]
        intro x hx
        simp [hcount x hx]
      rw [List.findIdx_cons, hph]
      simp only [cond_true]
      rw [List.filter_cons, hph]
      simp only [Bool.not_true, cond_false]
      rw [hfilter]
      exact List.Perm.refl _
    | false =>
      rw [hph] at hcount
      simp at hcount
      have htl : tl.countP isPlaceholderId = 1 := hcount
      rw [List.findIdx_cons, hph]
      simp only [cond_false]
      rw [List.filter_cons, hph]
      simp only [Bool.not_false, cond_true]
      have step : (hd :: tl).set (tl.findIdx (fun id => isPlaceholderId id) + 1) a
          = hd :: tl.set (tl.findIdx (fun id => isPlaceholderId id)) a := rfl
      rw [step]
      exact ((ih htl).cons hd).trans (List.Perm.swap a hd _)

/-- C3: for every ordered sequence of distinct identifiers that contains
the dragged identifier and exactly one placeholder identifier, the
non-ejected commit computation of the release handler (remove the dragged
id, locate the placeholder in the reduced sequence, substitute the dragged
id there) yields a permutation of the original sequence with the
placeholder removed: no identifiers are added or lost. -/
theorem commitOrder_perm (ids : List String) (droppedId : String)
    (hnd : ids.Nodup) (hmem : droppedId ∈ ids)
    (hone : ids.countP isPlaceholderId = 1)
    (hdrop : isPlaceholderId droppedId = false) :
    (commitOrder ids droppedId).Perm (withoutPlaceholderIds ids) := by
  have hA : (without ids droppedId).countP isPlaceholderId = 1 := by
    unfold without
    rw [List.countP_filter]
    have hfun : (fun a => isPlaceholderId a && (a != droppedId)) = isPlaceholderId := by
      funext a
      cases hb : isPlaceholderId a with
      | true =>
        have hne : a ≠ droppedId := by
          intro heq
          rw [heq, hdrop] at hb
          exact Bool.noConfusion hb
        simp [hne]
      | false => simp
    rw [hfun, hone]
  have key := set_findIdx_perm droppedId (without ids droppedId) hA
  have hcomm : (without ids droppedId).filter (fun id => !isPlaceholderId id)
      = (withoutPlaceholderIds ids).filter (fun id => id != droppedId) := by
    unfold without withoutPlaceholderIds
    exact List.filter_comm _ _ _
  have hndT : (withoutPlaceholderIds ids).Nodup := hnd.filter _
  have hmemT : droppedId ∈ withoutPlaceholderIds ids := by
    unfold withoutPlaceholderIds
    rw [List.mem_filter]
    exact ⟨hmem, by simp [hdrop]⟩
  have herase : (withoutPlaceholderIds ids).filter (fun id => id != droppedId)
      = (withoutPlaceholderIds ids).erase droppedId :=
    (List.Nodup.erase_eq_filter hndT droppedId).symm
  have key2 : (commitOrder ids droppedId).Perm
      (droppedId :: (withoutPlaceholderIds ids).erase droppedId) := by
    rw [← herase, ← hcomm]
    exact key
  exact key2.trans (List.perm_cons_erase hmemT).symm

/-- C3 witness: the permutation property evaluated on the concrete
sequence [B, placeholder, C, A] with dragged identifier A. -/
theorem commitOrder_perm_witness :
    (["B", "rhah-placeholder-x", "C", "A"] : List String).Nodup ∧
    "A" ∈ (["B", "rhah-placeholder-x", "C", "A"] : List String) ∧
    (["B", "rhah-placeholder-x", "C", "A"] : List String).countP isPlaceholderId = 1 ∧
    isPlaceholderId "A" = false ∧
    (commitOrder ["B", "rhah-placeholder-x", "C", "A"] "A").Perm
      (withoutPlaceholderIds ["B", "rhah-placeholder-x", "C", "A"]) :=
  ⟨by with_unfolding_all decide, by with_unfolding_all decide,
   by with_unfolding_all decide, by with_unfolding_all decide,
   commitOrder_perm ["B", "rhah-placeholder-x", "C", "A"] "A"
     (by with_unfolding_all decide) (by with_unfolding_all decide)
     (by with_unfolding_all decide) (by with_unfolding_all decide)⟩

/-- C4: the downward intrusion predicate holds iff the dragged bottom plus
the delta strictly exceeds the target top plus half the dragged height,
the upward predicate holds iff the dragged top plus the delta is strictly
below the target bottom minus half the dragged height, and for two
equal-height rectangles stacked with zero gap, a delta of exactly half the
dragged height produces no intrusion in either direction. -/
theorem intrusion_boundary (draggingItemRect targetItemRect : Rect) (dy : ℚ) :
    (intrudesDown dy draggingItemRect targetItemRect = true ↔
      draggingItemRect.bottom + dy > targetItemRect.top + draggingItemRect.height / 2) ∧
    (intrudesUp dy draggingItemRect targetItemRect = true ↔
      draggingItemRect.top + dy < targetItemRect.bottom - draggingItemRect.height / 2) ∧
    (Rect.height draggingItemRect = Rect.height targetItemRect →
      targetItemRect.top = draggingItemRect.bottom →
      intrudesDown (draggingItemRect.height / 2) draggingItemRect targetItemRect = false) ∧
    (Rect.height draggingItemRect = Rect.height targetItemRect →
      targetItemRect.bottom = draggingItemRect.top →
      intrudesUp (-(draggingItemRect.height / 2)) draggingItemRect targetItemRect = false) := by
  refine ⟨?_, ?_, ?_, ?_⟩
  · unfold intrudesDown
    split <;> simp_all
  · unfold intrudesUp
    split <;> simp_all
  · intro _ ht
    unfold intrudesDown
    rw [if_neg]
    rw [ht]
    simp
  · intro _ hb
    unfold intrudesUp
    rw [if_neg]
    rw [hb]
    intro hcon
    apply absurd hcon
    simp [sub_eq_add_neg]

/-- C4 witness: the boundary facts evaluated on the dragged rectangle
(0, 2), its zero-gap lower neighbour (2, 4) and upper neighbour (-2, 0),
all of height 2, at delta 1 = half the dragged height. -/
theorem intrusion_boundary_witness :
    intrudesDown (Rect.height { top := 0, bottom := 2, left := 0, right := 1 } / 2)
      { top := 0, bottom := 2, left := 0, right := 1 }
      { top := 2, bottom := 4, left := 0, right := 1 } = false ∧
    intrudesUp (-(Rect.height { top := 0, bottom := 2, left := 0, right := 1 } / 2))
      { top := 0, bottom := 2, left := 0, right := 1 }
      { top := -2, bottom := 0, left := 0, right := 1 } = false :=
  ⟨(intrusion_boundary { top := 0, bottom := 2, left := 0, right := 1 }
      { top := 2, bottom := 4, left := 0, right := 1 } 0).2.2.1
      (by norm_num [Rect.height]) (by norm_num),
   (intrusion_boundary { top := 0, bottom := 2, left := 0, right := 1 }
      { top := -2, bottom := 0, left := 0, right := 1 } 0).2.2.2
      (by norm_num [Rect.height]) (by norm_num)⟩

/-- C7 amended: `dragDidStartAt` returns true iff a press is active with a
non-empty pressed identifier, the queried identifier equals the pressed
one, and the queried point differs from the down point in at least one
coordinate.  (In particular it returns false when the pressed identifier
is the empty string, which the source's JS falsiness test conflates with
the absence of a press.)  The function is pure by construction: it is a
`Bool`-valued function of the state that performs no update. -/
theorem dragDidStartAt_characterization (s : DragService) (id : String) (x y : ℚ) :
    dragDidStartAt s id x y = true ↔
      ∃ downId downAt, s.downId = some downId ∧ s.downAt = some downAt ∧
        downId ≠ "" ∧ id = downId ∧ ¬(x = downAt.x ∧ y = downAt.y) := by
  unfold dragDidStartAt
  cases hdi : s.downId with
  | none => simp
  | some d =>
    cases hda : s.downAt with
    | none => simp
    | some p =>
      dsimp only
      split_ifs with h1 h2 h3 <;> simp_all

/-- C7 counterexample: with the empty string captured as the pressed
identifier, a press is active (both down fields are populated), the
queried identifier matches, and the queried point (1, 1) differs from the
down point (0, 0) — yet `dragDidStartAt` returns false, contradicting the
claim that it returns true in all cases other than the three it lists. -/
theorem dragDidStartAt_empty_id_counterexample :
    dragDidStartAt c7State "" 1 1 = false ∧
    c7State.downId = some "" ∧
    c7State.downAt = some { x := 0, y := 0 } ∧
    ¬((1 : ℚ) = (0 : ℚ) ∧ (1 : ℚ) = (0 : ℚ)) :=
  ⟨by with_unfolding_all exact rfl, rfl, rfl, by norm_num⟩

/-- C8: registering an element at an index strictly greater than the
current max element index reports an indexing error and leaves the whole
engine state (the registry included) unchanged; at any index less than or
equal to the max it stores the handle at that index without error, leaving
every other registry slot as it was. -/
theorem pushElement_spec (s : DragService) (element : Elem) (index : ℕ) :
    ((index : ℤ) > s.maxElementIndex →
      pushElement s element index =
        (s, some (DragErr.elementBeyondMax index s.maxElementIndex))) ∧
    ((index : ℤ) ≤ s.maxElementIndex →
      (pushElement s element index).2 = none ∧
      (pushElement s element index).1.elements index = some element ∧
      ∀ j, j ≠ index → (pushElement s element index).1.elements j = s.elements j) := by
  constructor
  · intro h
    unfold pushElement
    rw [if_pos h]
  · intro h
    unfold pushElement
    rw [if_neg (not_lt.mpr h)]
    refine ⟨rfl, by simp, ?_⟩
    intro j hj
    simp [hj]

/-- C8 witness: both branches evaluated on a registry expecting max index
1 — index 5 errors without mutation, index 0 stores the handle. -/
theorem pushElement_spec_witness :
    pushElement c8State elemA 5 =
      (c8State, some (DragErr.elementBeyondMax 5 c8State.maxElementIndex)) ∧
    (pushElement c8State elemA 0).2 = none ∧
    (pushElement c8State elemA 0).1.elements 0 = some elemA :=
  ⟨(pushElement_spec c8State elemA 5).1 (by norm_num [c8State]),
   ((pushElement_spec c8State elemA 0).2 (by norm_num [c8State])).1,
   ((pushElement_spec c8State elemA 0).2 (by norm_num [c8State])).2.1⟩

/-- C9: `beginTracking`'s two failure modes differ in atomicity — when
move/up handlers already exist it fails before any mutation and the state
is returned unchanged, but when no press is active it fails only after
having already set the dragging flag and recorded the dragging identifier,
leaving the engine mutated on error. -/
theorem startTracking_spec (s : DragService) (id : String) :
    ((s.handleMove = true ∨ s.handleUp = true) →
      startTracking s id = (s, some DragErr.handlersAlreadyExist)) ∧
    (s.handleMove = false → s.handleUp = false →
      (s.downAt = none ∨ s.downElement = none ∨ s.downRect = none ∨ s.lastPoint = none) →
      startTracking s id =
        ({ s with isDragging := true, draggingId := some id },
         some (DragErr.notDraggingState "startTracking"))) := by
  constructor
  · intro h
    unfold startTracking
    rw [if_pos h]
  · intro hm hu hmissing
    unfold startTracking
    rw [if_neg (by simp [hm, hu])]
    rw [if_pos]
    simpa using hmissing

/-- C9 witness: both failure modes evaluated concretely — a state with a
move handler installed is returned unchanged, and a freshly constructed
state (no press) is returned with the dragging flag and id already set. -/
theorem startTracking_spec_witness :
    startTracking c9HandlersState "A" = (c9HandlersState, some DragErr.handlersAlreadyExist) ∧
    startTracking c9EmptyState "A" =
      ({ c9EmptyState with isDragging := true, draggingId := some "A" },
       some (DragErr.notDraggingState "startTracking")) :=
  ⟨(startTracking_spec c9HandlersState "A").1 (Or.inl rfl),
   (startTracking_spec c9EmptyState "A").2 rfl rfl (Or.inl rfl)⟩

/-- C6: for every release with all preconditions met — the handlers
installed, a down element captured, a dragging identifier set (set means
the JS-falsy assertion passes: present and non-empty), both placeholder
indices set — the handler emits, in order, the removal of the move
listener, the removal of the up listener, and the clearing of the dragged
element's position override, and returns with every down/dragging/tracking
field (down id, down point, last point, dragging flag, dragging id, down
element, down rect, both handler slots, and the visual override) reset to
the empty baseline, before handing the committed order to the completion
callback as the final effect.  (The committed order is computed from the
ordered-id and placeholder fields, which the reset does not touch.) -/
theorem handleUp_effect_order (s : DragService)
    (hm : s.handleMove = true) (hu : s.handleUp = true)
    (he : s.downElement ≠ none) (hd : s.draggingId ≠ none)
    (hdne : s.draggingId ≠ some "")
    (hpi : s.placeholderItemIndex ≠ none) (hpe : s.placeholderElementIndex ≠ none) :
    ∃ newOrderedIds,
      handleUp s =
        ({ s with handleMove := false
                , handleUp := false
                , downId := none
                , downAt := none
                , lastPoint := none
                , isDragging := false
                , draggingId := none
                , downElement := none
                , downRect := none
                , stylePosition := none },
         [Effect.removeMouseMoveListener, Effect.removeMouseUpListener,
          Effect.clearElementPosition, Effect.dragEnd newOrderedIds], none) := by
  cases hde : s.downElement with
  | none => exact absurd hde he
  | some de =>
    cases hdi : s.draggingId with
    | none => exact absurd hdi hd
    | some di =>
      have hdiNe : di ≠ "" := by
        intro h
        exact hdne (h ▸ hdi)
      unfold handleUp
      rw [hm, hu]
      simp only [Bool.true_eq_false, if_false, hde, hdi]
      rw [if_neg hdiNe]
      rw [if_neg (by simp [hpi, hpe])]
      by_cases hej : s.placeholderItemIndex = some (-2)
      · rw [if_pos hej]
        exact ⟨withoutPlaceholderIds s.orderedElementIds, rfl⟩
      · rw [if_neg hej]
        exact ⟨commitOrder s.orderedElementIds di, rfl⟩

/-- C6 witness: the release sequence evaluated on a complete dragging
state over [A, B] with the placeholder at index 1. -/
theorem handleUp_effect_order_witness :
    ∃ newOrderedIds,
      handleUp c6State =
        ({ c6State with handleMove := false
                      , handleUp := false
                      , downId := none
                      , downAt := none
                      , lastPoint := none
                      , isDragging := false
                      , draggingId := none
                      , downElement := none
                      , downRect := none
                      , stylePosition := none },
         [Effect.removeMouseMoveListener, Effect.removeMouseUpListener,
          Effect.clearElementPosition, Effect.dragEnd newOrderedIds], none) :=
  handleUp_effect_order c6State rfl rfl (by simp [c6State]) (by simp [c6State])
    (by simp [c6State]) (by simp [c6State]) (by simp [c6State])

/-- C1: releasing in the ejected sentinel state commits the current
ordered-identifier sequence with only placeholder entries filtered out —
the dragged identifier A is retained in the committed order, not excluded
— and it does so although the service was constructed with
`dragOutIsAllowed := false`: no code path consults the flag, so the
configuration cannot prevent (nor is it needed to reach) the ejected
commit. -/
theorem ejectedRelease_keeps_dragged_and_ignores_dragOut :
    c1AtRelease.dragOutIsAllowed = false ∧
    c1AtRelease.placeholderItemIndex = some (-2) ∧
    c1AtRelease.draggingId = some "A" ∧
    c1AtRelease.orderedElementIds = ["A", "B", "C"] ∧
    (handleUp c1AtRelease).2.1 =
      [Effect.removeMouseMoveListener, Effect.removeMouseUpListener,
       Effect.clearElementPosition, Effect.dragEnd ["A", "B", "C"]] ∧
    (handleUp c1AtRelease).2.2 = none :=
  ⟨by with_unfolding_all exact rfl, by with_unfolding_all exact rfl,
   by with_unfolding_all exact rfl, by with_unfolding_all exact rfl,
   by with_unfolding_all exact rfl, by with_unfolding_all exact rfl⟩

/-- C2 counterexample: in the three-item scenario (press A at (5, 1), move
to (5, 3), i.e. two pixels — one full half-height past B's threshold but
short of C's), the move handler reports placeholder item-index 2 through
`onDragTo`, not 1 as the claim states. -/
theorem threeItem_reported_index_is_not_one :
    (handleMouseMove (readyToDrag true) 5 3).2.1 ≠ some 1 ∧
    (handleMouseMove (readyToDrag true) 5 3).2.1 = some 2 :=
  ⟨by with_unfolding_all decide, by with_unfolding_all exact rfl⟩

/-- C2 amended: in the three-item scenario the reported placeholder
item-index is 2 — an index into the full ordered sequence, which still
contains the dragged item A, so the placeholder is spliced to
[A, B, placeholder, C] (visually [B, placeholder, C] with A lifted) — and
the order committed to the completion callback on release is [B, A, C],
exactly as the claim states. -/
theorem threeItem_reports_two_and_commits_BAC :
    (handleMouseMove (readyToDrag true) 5 3).2.1 = some 2 ∧
    (handleMouseMove (readyToDrag true) 5 3).2.2 = none ∧
    c2Displayed = ["A", "B", "rhah-placeholder-x", "C"] ∧
    (handleUp c2AfterRender).2.1 =
      [Effect.removeMouseMoveListener, Effect.removeMouseUpListener,
       Effect.clearElementPosition, Effect.dragEnd ["B", "A", "C"]] ∧
    (handleUp c2AfterRender).2.2 = none :=
  ⟨by with_unfolding_all exact rfl, by with_unfolding_all exact rfl,
   by with_unfolding_all exact rfl, by with_unfolding_all exact rfl,
   by with_unfolding_all exact rfl⟩

/-- C5: on a move event with clientX 3 and clientY 7 from last point
(0, 0), the handler records last point (7, 7) — the x coordinate is set to
the event's clientY, not its clientX as the claim (and the spec's Point
layout, and the `onMouseDown` assignment) require — while the direction
update behaves as claimed (positive delta gives "down"). -/
theorem moveHandler_lastPoint_x_is_clientY :
    (handleMouseMove c5State 3 7).1.lastPoint = some { x := 7, y := 7 } ∧
    (handleMouseMove c5State 3 7).1.lastPoint ≠ some { x := 3, y := 7 } ∧
    (handleMouseMove c5State 3 7).1.lastDirection = some Dir.down ∧
    (handleMouseMove c5State 3 7).2.2 = none :=
  ⟨by with_unfolding_all exact rfl, by with_unfolding_all decide,
   by with_unfolding_all exact rfl, by with_unfolding_all exact rfl⟩

/-- C10: the move handler conflates a placeholder at position 0 with "no
placeholder": the falsy `|| -2` fallback turns a recorded placeholder
element index 0 into the ejected sentinel -2, the upward-walk item-index
correction treats a placeholder at element index 0 exactly like an absent
one, and in a concrete session with the placeholder at index 0 and no
intruding element the handler reports -2 instead of keeping 0. -/
theorem placeholderZero_conflated_with_absent :
    orFalsy (some 0) (-2) = -2 ∧
    (∀ elementIndex : ℤ, getItemIndex (some 0) elementIndex = getItemIndex none elementIndex) ∧
    c10State.placeholderItemIndex = some 0 ∧
    c10State.placeholderElementIndex = some 0 ∧
    intrudesDown (-4) elemA.rect { top := 0, bottom := 2, left := 0, right := 10 } = false ∧
    (handleMouseMove c10State 5 (-3)).2.1 = some (-2) ∧
    (handleMouseMove c10State 5 (-3)).2.2 = none :=
  ⟨rfl, fun _ => rfl, rfl, rfl,
   by with_unfolding_all exact rfl,
   by with_unfolding_all exact rfl, by with_unfolding_all exact rfl⟩

end OrderableList
